import Mathlib

/-!
Verification model of the iatweets repository (warc_simple.py, tweet_tools.py,
crawl.py, retweever.py). Python strings are modelled as Lean String values,
Python dicts as association lists, JSON values by the JVal type, and Python
exceptions by Except PyErr. All definitions are translated from the source
files; line references point into the repository.
-/

set_option maxRecDepth 4000

/-- Python exceptions that the modelled code can raise. -/
inductive PyErr where
  | keyError (k : String)
  | typeError
  | assertError (line : String)
  | payloadDecode (prefixChars : String)
deriving Repr, DecidableEq

/-! ### String primitives (models of the Python str operations used) -/

/-- Model of str.rstrip with chars backslash-r backslash-n: drop trailing CR and LF characters. -/
def pyRstripCRLF (s : String) : String :=
  String.mk ((s.data.reverse.dropWhile (fun c => c == '\r' || c == '\n')).reverse)

/-- Model of str.strip with no arguments: drop surrounding whitespace. -/
def pyStripWs (s : String) : String :=
  String.mk (((s.data.dropWhile Char.isWhitespace).reverse.dropWhile Char.isWhitespace).reverse)

/-- Model of str.lstrip with a single space argument. -/
def lstripSpace (s : String) : String :=
  String.mk (s.data.dropWhile (fun c => c == ' '))

/-- Model of str.lower, character by character. -/
def strToLower (s : String) : String :=
  String.mk (s.data.map Char.toLower)

/-- Model of the slice s[:n]. -/
def strTake (s : String) (n : Nat) : String :=
  String.mk (s.data.take n)

/-- Model of the slice s[n:]. -/
def strDrop (s : String) (n : Nat) : String :=
  String.mk (s.data.drop n)

/-- Model of str.startswith. -/
def strStartsWith (s p : String) : Bool :=
  s.data.take p.data.length == p.data

/-- Model of the Python membership test of a single character in a string. -/
def charIn (c : Char) (s : String) : Bool :=
  s.data.contains c

/-- Model of str.endswith for a one-piece suffix (used only to state the
ends-with reading of the truncation heuristic). -/
def strEndsWith (s t : String) : Bool :=
  s.data.drop (s.data.length - t.data.length) == t.data

/-- Helper for splitting a character list at every occurrence of a separator. -/
def splitOnCharAux (sep : Char) : List Char → List Char → List String
  | [], acc => [String.mk acc.reverse]
  | x :: xs, acc =>
    if x == sep then String.mk acc.reverse :: splitOnCharAux sep xs []
    else splitOnCharAux sep xs (x :: acc)

/-- Model of str.split with a colon argument. -/
def pySplitColon (s : String) : List String :=
  splitOnCharAux ':' s.data []

/-- Helper for str.split with no arguments: split on whitespace runs, dropping
empty pieces. -/
def wordsAux : List Char → List Char → List String
  | [], acc => if acc.isEmpty then [] else [String.mk acc.reverse]
  | x :: xs, acc =>
    if x.isWhitespace then
      if acc.isEmpty then wordsAux xs [] else String.mk acc.reverse :: wordsAux xs []
    else wordsAux xs (x :: acc)

/-- Model of str.split with no arguments. -/
def pySplitWs (s : String) : List String :=
  wordsAux s.data []

/-- Helper for str.splitlines, splitting at LF characters (the model uses LF
as the universal line terminator). -/
def splitlinesAux : List Char → List Char → List String
  | [], acc => if acc.isEmpty then [] else [String.mk acc.reverse]
  | x :: xs, acc =>
    if x == '\n' then String.mk acc.reverse :: splitlinesAux xs []
    else splitlinesAux xs (x :: acc)

/-- Model of str.splitlines. -/
def pySplitlines (s : String) : List String :=
  splitlinesAux s.data []

/-- Model of whether int(s) succeeds: optional surrounding whitespace, an
optional sign, then at least one digit. -/
def pyIntOk (s : String) : Bool :=
  let t := (pyStripWs s).data
  let t := match t with
    | '+' :: r => r
    | '-' :: r => r
    | r => r
  !t.isEmpty && t.all Char.isDigit

/-- Model of whether float(s) succeeds, restricted to plain decimal literals:
optional sign, digits with at most one dot, at least one digit. Exponent and
inf or nan spellings are not used by the records this repository handles. -/
def pyFloatOk (s : String) : Bool :=
  let t := (pyStripWs s).data
  let t := match t with
    | '+' :: r => r
    | '-' :: r => r
    | r => r
  !t.isEmpty && t.all (fun c => c.isDigit || c == '.') && (t.count '.' ≤ 1) && t.any Char.isDigit

/-- Model of the join of a string list with a colon separator. -/
def joinColon : List String → String
  | [] => ""
  | x :: xs => xs.foldl (fun acc y => acc ++ ":" ++ y) x

/-! ### JSON values (results of json.loads) -/

/-- JSON values as decoded by json.loads. -/
inductive JVal where
  | jnull
  | jbool (b : Bool)
  | jnum (n : Int)
  | jstr (s : String)
  | jarr (elems : List JVal)
  | jobj (fields : List (String × JVal))
deriving Repr

/-- Raw dict lookup: present key yields its raw value, including a JSON null. -/
def jraw (j : JVal) (k : String) : Option JVal :=
  match j with
  | .jobj fs => (fs.find? (fun p => p.1 == k)).map (fun p => p.2)
  | _ => none

/-- Model of the Python membership test (k in d); a key bound to null counts
as present. -/
def jhas (j : JVal) (k : String) : Bool :=
  (jraw j k).isSome

/-- Model of dict.get(k): a missing key and a JSON null both become the Python
value None, which this model conflates with Option.none. -/
def jfield (j : JVal) (k : String) : Option JVal :=
  match jraw j k with
  | some .jnull => none
  | other => other

/-- Field access projected to an integer value. -/
def jfieldInt (j : JVal) (k : String) : Option Int :=
  match jfield j k with
  | some (.jnum n) => some n
  | _ => none

/-- Field access projected to a string value. -/
def jfieldStr (j : JVal) (k : String) : Option String :=
  match jfield j k with
  | some (.jstr s) => some s
  | _ => none

/-- Field access projected to a boolean value. -/
def jfieldBool (j : JVal) (k : String) : Option Bool :=
  match jfield j k with
  | some (.jbool b) => some b
  | _ => none

/-- Python truthiness of a decoded JSON value. -/
def pyTruthy : JVal → Bool
  | .jnull => false
  | .jbool b => b
  | .jnum n => n != 0
  | .jstr s => s != ""
  | .jarr l => !l.isEmpty
  | .jobj l => !l.isEmpty

/-! ### warc_simple.py -/

/-- The HTTP_METHODS tuple of warc_simple.py line 18. -/
def HTTP_METHODS : List String :=
  ["get", "post", "head", "put", "delete", "trace", "options", "connect", "patch"]

/-- Model of warc_simple.looks_like_http_header (lines 202 to 222): does the
line look like the first line of an HTTP request or response? -/
def looks_like_http_header (line : String) (warc_type : String) : Bool :=
  let fields := pySplitWs (strToLower line)
  if warc_type == "request" then
    match fields with
    | m :: _ :: protocol :: _ =>
      HTTP_METHODS.contains m && strStartsWith protocol "http/"
    | _ => false
  else if warc_type == "response" then
    match fields with
    | protocol :: status :: _ =>
      strStartsWith protocol "http/" && pyIntOk status
    | _ => false
  else false

/-- Loop of warc_simple.strip_http_headers (lines 181 to 199) over the payload
lines, carrying the first_line and in_http_header flags. The first non-blank
line is consumed by the continue statement whether or not it looks like an
HTTP header line. -/
def stripHttpAux (warc_type : String) : List String → Bool → Bool → String
  | [], _, _ => ""
  | line :: rest, first_line, in_http_header =>
    if first_line then
      if pyRstripCRLF line ≠ "" then
        stripHttpAux warc_type rest false (looks_like_http_header line warc_type)
      else
        stripHttpAux warc_type rest true in_http_header
    else if in_http_header then
      if pyRstripCRLF line = "" then stripHttpAux warc_type rest false false
      else stripHttpAux warc_type rest false true
    else
      line ++ stripHttpAux warc_type rest false false

/-- Model of warc_simple.strip_http_headers (lines 181 to 199). Note that
splitlines removes the line terminators, so the surviving payload lines are
concatenated without separators, exactly as in the source. -/
def strip_http_headers (payload : String) (warc_type : String) : String :=
  stripHttpAux warc_type (pySplitlines payload) true false

/-- OrderedDict assignment: an existing key keeps its position and gets the
new value, a new key is appended at the end. -/
def odSet (d : List (String × String)) (k v : String) : List (String × String) :=
  if d.any (fun p => p.1 == k) then
    d.map (fun p => if p.1 == k then (k, v) else p)
  else d ++ [(k, v)]

/-- Lookup in the ordered header mapping. -/
def odGet (d : List (String × String)) (k : String) : Option String :=
  (d.find? (fun p => p.1 == k)).map (fun p => p.2)

/-- Loop of warc_simple.headers_to_dict (lines 167 to 178) over the header
lines. A version line with no colon is stored under the __VERSION__ key; any
other line with no colon fails the assert statement, modelled as an error. -/
def headersToDictAux : List String → List (String × String) →
    Except PyErr (List (String × String))
  | [], d => .ok d
  | line :: rest, d =>
    let fields := pySplitColon line
    if strStartsWith line "WARC/" && fields.length == 1 then
      headersToDictAux rest (odSet d "__VERSION__" line)
    else
      match fields with
      | f0 :: f1 :: frest =>
        headersToDictAux rest (odSet d f0 (lstripSpace (joinColon (f1 :: frest))))
      | _ => .error (.assertError line)

/-- Model of warc_simple.headers_to_dict (lines 167 to 178). -/
def headers_to_dict (headers : String) : Except PyErr (List (String × String)) :=
  headersToDictAux (pySplitlines headers) []

/-- Model of warc_simple.create_return_data (lines 143 to 164) specialised to
payload_json true and omit_headers true, the JSON decoding mode. The external
json.loads is the jloads parameter; on a parse failure the source logs the
first 130 characters of the payload and re-raises, which the model returns as
a payloadDecode error carrying that prefix. -/
def create_return_data_json (jloads : String → Option JVal) (content : String)
    (warc_type : Option String) : Except PyErr JVal :=
  let content :=
    if warc_type == some "request" || warc_type == some "response" then
      strip_http_headers content ((warc_type).getD "")
    else content
  if content ≠ "" then
    match jloads content with
    | some v => .ok v
    | none => .error (.payloadDecode (strTake content 130))
  else .ok (.jobj [])

/-- State of the line scanner of warc_simple.parse: accumulated headers and
content (kept as a line list; the Python string is the lines joined with LF),
the detected WARC-Type value, and the inside-header flag. -/
structure ParseSt where
  headers : List String
  content : List String
  warc_type : Option String
  inHeader : Bool
deriving Repr

/-- Joined form of an accumulated line list, matching the Python string that
concatenates each line with its terminator. -/
def joinLines : List String → String
  | [] => ""
  | l :: rest => l ++ "\n" ++ joinLines rest

/-- Does this line open a new record, per warc_simple.parse lines 123 to 129:
it starts with WARC/ and the rest parses as a float. -/
def isMarkerLine (line : String) : Bool :=
  strStartsWith line "WARC/" && pyFloatOk (pyRstripCRLF (strDrop line 5))

/-- Extraction of the WARC-Type value from a header line, per warc_simple.parse
lines 117 to 120. -/
def warcTypeOfLine (line : String) (old : Option String) : Option String :=
  if strStartsWith line "WARC-Type:" then
    let fields := pySplitColon line
    if fields.length == 2 then some (strToLower (pyStripWs (fields.getD 1 "")))
    else old
  else old

/-- Line loop of warc_simple.parse (lines 93 to 140) in JSON mode, over lines
given without their terminators. The generator yields the decoded payloads in
order; when create_return_data raises, the exception propagates to the
consumer, so the result pairs the payloads yielded before the failure with the
error, and no later record is decoded. -/
def parseLinesJson (jloads : String → Option JVal) :
    List String → ParseSt → List JVal × Option PyErr
  | [], st =>
    if st.content ≠ [] then
      match create_return_data_json jloads (joinLines st.content) st.warc_type with
      | .ok v => ([v], none)
      | .error e => ([], some e)
    else ([], none)
  | line :: rest, st =>
    if st.inHeader then
      if pyRstripCRLF line = "" then
        parseLinesJson jloads rest { st with inHeader := false }
      else
        parseLinesJson jloads rest
          { st with warc_type := warcTypeOfLine line st.warc_type,
                    headers := st.headers ++ [line] }
    else
      if isMarkerLine line then
        if st.content ≠ [] then
          match create_return_data_json jloads (joinLines st.content) st.warc_type with
          | .error e => ([], some e)
          | .ok v =>
            let r := parseLinesJson jloads rest ⟨[line], [], none, true⟩
            (v :: r.1, r.2)
        else
          parseLinesJson jloads rest ⟨[line], [], none, true⟩
      else
        parseLinesJson jloads rest { st with content := st.content ++ [line] }

/-- Model of warc_simple.parse in JSON mode on a stream given as a line list. -/
def parse_json (jloads : String → Option JVal) (lines : List String) :
    List JVal × Option PyErr :=
  parseLinesJson jloads lines ⟨[], [], none, false⟩

/-! ### tweet_tools.py -/

/-- Input shape of does_tweet_look_truncated: a tweet dict observed through
the two keys the function touches. The outer Option is key presence, the
inner Option is a Python None value versus a string. -/
structure TweetDict where
  full_text : Option (Option String)
  text : Option (Option String)
deriving Repr, DecidableEq

/-- Model of tweet_tools.does_tweet_look_truncated (lines 241 to 251). When
full_text is a key the result is False; otherwise the membership test of the
ellipsis character in the text runs: a missing text key raises KeyError and a
None text value raises TypeError. The Python 2 UnicodeDecodeError fallback is
a byte-string artifact with no counterpart for unicode strings. -/
def does_tweet_look_truncated (tweet : TweetDict) : Except PyErr Bool :=
  if tweet.full_text.isSome then .ok false
  else
    match tweet.text with
    | none => .error (.keyError "text")
    | some none => .error .typeError
    | some (some s) => .ok (charIn '…' s)

/-- Datatype dispatch values of tweet_tools.extract_tweet that crawl.py
exercises: request (a fetched API response) and json_str (a decoded WARC
payload). The json shortcut path of lines 80 to 84 is only reachable from
tweet_tools.main and is outside the claims. -/
inductive DType where
  | request
  | json_str
deriving Repr, DecidableEq

/-- The normalized tweet dict built by tweet_tools.extract_tweet lines 142
to 168. Option fields model Python None values. -/
structure ExtractedTweet where
  empty : Bool
  id : Option Int
  user : Option String
  screen_name : Option String
  description : Option String
  is_profile : Bool
  truncated : Option Bool
  in_reply_to_id : Option Int
  in_reply_to_user : Option String
  in_reply_to_status_id : Option Int
  in_reply_to_screen_name : Option String
  is_retweet : Option Bool
  retweeted_id : Option Int
  retweeted_text : Option String
  retweeted_user : Option String
  user_mentions : Option String
  text : Option String
deriving Repr, DecidableEq

/-- Model of tweet_tools.get_user_and_status (lines 171 to 179). -/
def get_user_and_status (entry : JVal) : Option (JVal × JVal) :=
  if jhas entry "user" then some (entry, (jraw entry "user").getD .jnull)
  else if jhas entry "status" then some ((jraw entry "status").getD .jnull, entry)
  else none

/-- Python or of two optional strings, with the empty string falsy. -/
def pyOrStr (a b : Option String) : Option String :=
  if a.getD "" ≠ "" then a else b

/-- One pass of the user_mentions loop of extract_tweet lines 131 to 137:
collect screen names and remember the screen name of the last entity whose
first index is 3 when the status is a retweet. A missing screen_name is
collected as an empty string (the source would fail later in the join). -/
def mentionsFold (isRetweet : Bool) (entities : List JVal) :
    List String × Option String :=
  entities.foldl
    (fun acc entity =>
      let sn := jfieldStr entity "screen_name"
      let names := acc.1 ++ [sn.getD ""]
      let rtUser :=
        if isRetweet then
          match jraw entity "indices" with
          | some (.jarr (.jnum 3 :: _)) => sn
          | _ => acc.2
        else acc.2
      (names, rtUser))
    ([], none)

/-- Join of the collected screen names with comma separators. -/
def joinComma : List String → String
  | [] => ""
  | x :: xs => xs.foldl (fun acc y => acc ++ "," ++ y) x

/-- Model of tweet_tools.extract_tweet (lines 75 to 168) on an already decoded
entry dict, for the request and json_str datatypes used by crawl.py. The
utf-8 encoding steps are identity on the modelled strings. Returns none for
an empty entry (no status and no user) when empty_empties is true, matching
the None return of line 100. -/
def extract_tweet (dtype : DType) (entry : JVal) (empty_empties : Bool) :
    Option ExtractedTweet :=
  let is_profile := jhas entry "status" && jhas entry "screen_name"
  let su := get_user_and_status entry
  let status := (su.map (fun p => p.1)).getD (.jobj [])
  let user := (su.map (fun p => p.2)).getD (.jobj [])
  let empty := su.isNone
  if empty && empty_empties then none
  else
    let text : Option String :=
      match dtype with
      | .request => jfieldStr status "full_text"
      | .json_str =>
        if jhas status "full_text" then jfieldStr status "full_text"
        else jfieldStr status "text"
    let retweeted_status := jfield status "retweeted_status"
    let isRetweet := pyTruthy (retweeted_status.getD .jnull)
    let retweeted_id : Option Int :=
      if isRetweet then jfieldInt (retweeted_status.getD .jnull) "id" else none
    let retweeted_text : Option String :=
      if isRetweet then
        pyOrStr (jfieldStr (retweeted_status.getD .jnull) "full_text")
                (jfieldStr (retweeted_status.getD .jnull) "text")
      else none
    let mention_entities : List JVal :=
      match jfield ((jfield status "entities").getD (.jobj [])) "user_mentions" with
      | some (.jarr l) => l
      | _ => []
    let mentions := mentionsFold isRetweet mention_entities
    let user_mentions : Option String :=
      if mention_entities.isEmpty then none else some (joinComma mentions.1)
    let retweeted_user : Option String :=
      if mention_entities.isEmpty then none else mentions.2
    let tweet : ExtractedTweet :=
      { empty := empty
        id := jfieldInt status "id"
        user := jfieldStr user "screen_name"
        screen_name := jfieldStr user "screen_name"
        description := jfieldStr user "description"
        is_profile := is_profile
        truncated := jfieldBool status "truncated"
        in_reply_to_id := jfieldInt status "in_reply_to_status_id"
        in_reply_to_user := jfieldStr status "in_reply_to_screen_name"
        in_reply_to_status_id := jfieldInt status "in_reply_to_status_id"
        in_reply_to_screen_name := jfieldStr status "in_reply_to_screen_name"
        is_retweet := some isRetweet
        retweeted_id := retweeted_id
        retweeted_text := retweeted_text
        retweeted_user := retweeted_user
        user_mentions := user_mentions
        text := text }
    some
      (if is_profile then
        { tweet with
            in_reply_to_id := none
            in_reply_to_user := none
            in_reply_to_status_id := none
            in_reply_to_screen_name := none
            is_retweet := none
            retweeted_id := none
            retweeted_text := none
            retweeted_user := none }
      else tweet)

/-- View of an ExtractedTweet as the dict shape does_tweet_look_truncated
inspects: such dicts never carry a full_text key and always carry a text key
whose value may be None. -/
def toTweetDict (t : ExtractedTweet) : TweetDict :=
  { full_text := none, text := some t.text }

/-! ### crawl.py and retweever.py -/

/-- Outcome of one retweever.Api.GetStatus call as crawl.get_conversation
observes it: the HTTP status code and the decoded JSON body (none when
response.json() raises ValueError). -/
structure ApiResult where
  status_code : Int
  body : Option JVal
deriving Repr

/-- Python truthiness of an optional tweet id. -/
def idTruthy : Option Int → Bool
  | none => false
  | some n => n != 0

/-- Python or on two optional ids, as in the expression in_reply_to_id or
retweeted_id of crawl.py line 405. -/
def pyOrId (a b : Option Int) : Option Int :=
  if idTruthy a then a else b

/-- Lookup in the done dict (id to visit count) of crawl.py. -/
def pyDictGet (d : List (Int × Nat)) (k : Int) : Option Nat :=
  (d.find? (fun p => p.1 == k)).map (fun p => p.2)

/-- The statement done of id becomes done.get(id, 0) + 1, crawl.py line 368. -/
def pyDictIncr (d : List (Int × Nat)) (k : Int) : List (Int × Nat) :=
  match pyDictGet d k with
  | some c => d.map (fun p => if p.1 == k then (k, c + 1) else p)
  | none => d ++ [(k, 1)]

/-- One conversation dict appended by crawl.get_conversation (lines 338 and
378), field for field. The response is none exactly for the reused seed
entry. In the reused seed entry the source writes the replied_by_id key twice
and never writes replied_by_user; downstream reads use dict.get, so both
behave as the None this model stores. -/
structure ChainEntry where
  id : Option Int
  tweet : Option ExtractedTweet
  response : Option ApiResult
  in_reply_to_id : Option Int
  in_reply_to_user : Option String
  replied_by_id : Option Int
  replied_by_user : Option String
  retweeted_id : Option Int
  retweeted_by_id : Option Int
  retweeted_by_user : Option String
deriving Repr

/-- Result of a conversation walk: the appended entries, the final done dict
and remaining budget, the ids fetched from the API in order, and whether the
budget warning of crawl.py lines 364 to 365 was logged. -/
structure WalkResult where
  entries : List ChainEntry
  doneMap : List (Int × Nat)
  remaining : Int
  fetchLog : List Int
  limitHit : Bool
deriving Repr

/-- The tweet value extract_tweet yields from a fetched response, crawl.py
lines 369 to 372: a ValueError from response.json() and an empty extraction
both leave the empty dict, modelled as none. -/
def fetchTweet (api : Int → ApiResult) (i : Int) : Option ExtractedTweet :=
  match (api i).body with
  | some j => extract_tweet .request j true
  | none => none

/-- The while loop of crawl.get_conversation (lines 356 to 405). The fuel
argument only bounds the recursion depth and every theorem supplies enough of
it; each iteration checks the done dict first, then the remaining budget, and
only then fetches. The remaining budget is an Int because main always passes
args.limit minus the request count (crawl.py line 150); the None default of
the source would raise TypeError at the decrement on the first fetch and is
never exercised. -/
def walkLoop (api : Int → ApiResult) :
    Nat → Option Int → Option Int → Option String → Option Int → Option String →
    List (Int × Nat) → Int → WalkResult
  | 0, _, _, _, _, _, doneMap, remaining => ⟨[], doneMap, remaining, [], false⟩
  | Nat.succ fuel, id, replied_by_id, replied_by_user, retweeted_by_id,
      retweeted_by_user, doneMap, remaining =>
    if idTruthy id = false then ⟨[], doneMap, remaining, [], false⟩
    else
      let i := id.getD 0
      if (pyDictGet doneMap i).isSome then ⟨[], doneMap, remaining, [], false⟩
      else if remaining > 0 then
        let resp := api i
        let rem2 := remaining - 1
        let done2 := if resp.status_code == 200 then pyDictIncr doneMap i else doneMap
        let tweet := if resp.status_code == 200 then fetchTweet api i else none
        let retweeted_id := tweet.bind (fun t => t.retweeted_id)
        let in_reply_to_id := tweet.bind (fun t => t.in_reply_to_id)
        let in_reply_to_user := tweet.bind (fun t => t.in_reply_to_user)
        let entry : ChainEntry :=
          ⟨some i, tweet, some resp, in_reply_to_id, in_reply_to_user,
           replied_by_id, replied_by_user, retweeted_id, retweeted_by_id,
           retweeted_by_user⟩
        match tweet with
        | none => ⟨[entry], done2, rem2, [i], false⟩
        | some t =>
          let rb_id := if idTruthy in_reply_to_id then some i else none
          let rb_user := if idTruthy in_reply_to_id then t.user else none
          let rt_id := if idTruthy retweeted_id then some i else none
          let rt_user := if idTruthy retweeted_id then t.user else none
          let nextId := pyOrId in_reply_to_id retweeted_id
          let r := walkLoop api fuel nextId rb_id rb_user rt_id rt_user done2 rem2
          ⟨entry :: r.entries, r.doneMap, r.remaining, i :: r.fetchLog, r.limitHit⟩
      else ⟨[], doneMap, remaining, [], true⟩

/-- The reused seed entry of crawl.get_conversation lines 338 to 348. -/
def mkSeedEntry (tweet : ExtractedTweet) : ChainEntry :=
  ⟨tweet.id, some tweet, none, tweet.in_reply_to_id, tweet.in_reply_to_user,
   none, none, tweet.retweeted_id, none, none⟩

/-- Model of crawl.get_conversation (lines 329 to 406). With use_original the
seed tweet is entered as-is and the walk starts at its in_reply_to_id;
otherwise the walk starts by re-fetching the seed id. -/
def get_conversation (api : Int → ApiResult) (fuel : Nat)
    (tweet : ExtractedTweet) (use_original : Bool) (remaining : Int)
    (doneMap : List (Int × Nat)) : WalkResult :=
  if use_original then
    let r := walkLoop api fuel tweet.in_reply_to_id none none none none doneMap remaining
    ⟨mkSeedEntry tweet :: r.entries, r.doneMap, r.remaining, r.fetchLog, r.limitHit⟩
  else
    walkLoop api fuel tweet.id none none none none doneMap remaining

/-- The use_original decision of crawl.main line 146. -/
def use_original_of (is_profile looks_truncated : Bool) : Bool :=
  is_profile || !looks_truncated

/-- Rendering of a Python value in str.format: None prints as the word None. -/
def fmtOptStr : Option String → String
  | none => "None"
  | some s => s

/-- Rendering of an optional integer in str.format. -/
def fmtOptInt : Option Int → String
  | none => "None"
  | some n => toString n

/-- Rendering of a Python bool in str.format. -/
def pyBoolStr (b : Bool) : String :=
  if b then "True" else "False"

/-- Model of tweet_tools.get_tweet_url for the urltype this. -/
def get_tweet_url_this (t : ExtractedTweet) : String :=
  "https://twitter.com/" ++ fmtOptStr t.user ++ "/status/" ++ fmtOptInt t.id

/-- Model of tweet_tools.get_tweet_url for the urltype reply_to. -/
def get_tweet_url_reply_to (t : ExtractedTweet) : String :=
  "https://twitter.com/" ++ fmtOptStr t.in_reply_to_user ++ "/status/" ++
    fmtOptInt t.in_reply_to_id

/-- Model of tweet_tools.get_tweet_url for the urltype replied_by. -/
def get_tweet_url_replied_by (e : ChainEntry) : String :=
  "https://twitter.com/" ++ fmtOptStr e.replied_by_user ++ "/status/" ++
    fmtOptInt e.replied_by_id

/-- Model of tweet_tools.get_tweet_url for the urltype retweeted_by. -/
def get_tweet_url_retweeted_by (e : ChainEntry) : String :=
  "https://twitter.com/" ++ fmtOptStr e.retweeted_by_user ++ "/status/" ++
    fmtOptInt e.retweeted_by_id

/-- Model of tweet_tools.format_tweet_for_humans (lines 182 to 222) on a
conversation entry. The tweet dicts reaching it are extract_tweet outputs or
the empty dict left by a failed fetch; an empty dict makes the very first
subscript raise KeyError, which the except clause at line 215 logs and
re-raises. Extracted dicts never carry a full_text key, so the content is the
text value; a None content raises TypeError at the concatenation of line 203,
and a None description of a profile raises TypeError at line 188. -/
def format_tweet_for_humans (tweet_data : ChainEntry) (file_num entry_num : Nat) :
    Except PyErr String :=
  match tweet_data.tweet with
  | none => .error (.keyError "is_profile")
  | some t =>
    if t.is_profile then
      match t.description with
      | none => .error .typeError
      | some d =>
        .ok (toString file_num ++ "/" ++ toString entry_num ++ ": Profile: @" ++
             fmtOptStr t.user ++ "\n" ++ d ++ "\n")
    else
      match t.text with
      | none => .error .typeError
      | some content =>
        let output := toString file_num ++ "/" ++ toString entry_num ++ ": " ++
          get_tweet_url_this t ++ "\n" ++ content ++ "\n"
        let output :=
          if idTruthy t.in_reply_to_id then
            output ++ "A reply to: " ++ get_tweet_url_reply_to t ++ "\n"
          else output
        let output :=
          if idTruthy tweet_data.replied_by_id then
            output ++ "Replied by: " ++ get_tweet_url_replied_by tweet_data ++ "\n"
          else output
        let output :=
          if idTruthy tweet_data.retweeted_by_id then
            output ++ "Retweeted by: " ++ get_tweet_url_retweeted_by tweet_data ++ "\n"
          else output
        match does_tweet_look_truncated (toTweetDict t) with
        | .error e => .error e
        | .ok b => .ok (output ++ "Looks truncated? " ++ pyBoolStr b ++ "\n")

/-- Decidable description of a reply chain visible to the walk: every id in
the list is truthy, each id but the last fetches with status 200 and extracts
to a tweet whose ancestor link is the next id in the list. The last id is the
ancestor still pending when the walk stops. -/
def chainOk (api : Int → ApiResult) : List Int → Bool
  | [] => true
  | [i] => i != 0
  | i :: j :: rest =>
    i != 0 && (api i).status_code == 200 &&
    (match fetchTweet api i with
     | none => false
     | some t => pyOrId t.in_reply_to_id t.retweeted_id == some j) &&
    chainOk api (j :: rest)

/-! ### Concrete fixtures used by the example-level theorems -/

/-- Stub for the external json.loads used to exercise the decoder: it parses
exactly the payload of the well-formed fixture record. -/
def jl0 : String → Option JVal := fun s =>
  if s = "[1]\n" then some (.jarr [.jnum 1]) else none

/-- Fetched tweet body with id i replying to id i + 1, giving an unbounded
reply chain. -/
def tweetBody (i : Int) : JVal :=
  .jobj [("user", .jobj [("screen_name", .jstr "u")]), ("id", .jnum i),
         ("in_reply_to_status_id", .jnum (i + 1)), ("full_text", .jstr "hello")]

/-- API stub whose every fetch succeeds and links to the next id. -/
def apiC3 : Int → ApiResult := fun i => ⟨200, some (tweetBody i)⟩

/-- API stub whose every fetch fails with a 404 and an unparseable body. -/
def api404 : Int → ApiResult := fun _ => ⟨404, none⟩

/-- API stub whose every fetch succeeds but extracts to the empty dict. -/
def apiOk : Int → ApiResult := fun _ => ⟨200, none⟩

/-- A truncated, non-profile seed tweet with id 1 replying to id 2, as
extract_tweet would produce it from an input record. -/
def seedT : ExtractedTweet :=
  ⟨false, some 1, some "bob", some "bob", none, false, some true, some 2, some "carol",
   some 2, some "carol", some false, none, none, none, none, some "hello…"⟩

/-- A profile entry payload: a user object with a nested status. -/
def entryP : JVal :=
  .jobj [("screen_name", .jstr "alice"),
         ("status", .jobj [("id", .jnum 7), ("in_reply_to_status_id", .jnum 9),
                           ("text", .jstr "hi")]),
         ("description", .jstr "bio")]

/-- The extraction of the profile fixture, written out. -/
def profT : ExtractedTweet :=
  ⟨false, some 7, some "alice", some "alice", some "bio", true, none, none, none,
   none, none, none, none, none, none, none, some "hi"⟩

/-! ### C1: behaviour of the decoder on an unparseable JSON payload -/

/-- Claim C1 counterexample. The stream holds a record whose payload does not
parse followed by a well-formed record. The claim predicts that the bad
record is skipped and the next record is decoded; instead decoding yields no
record at all and stops with the payload-decode error (carrying the payload
prefix), as the source re-raises the ValueError at warc_simple.py line 152.
The second conjunct shows the trailing record on its own is well formed. -/
theorem parse_json_abort_counterexample :
    parse_json jl0 ["WARC/1.0", "", "notjson", "WARC/1.0", "", "[1]"] =
      ([], some (.payloadDecode "notjson\n")) ∧
    parse_json jl0 ["WARC/1.0", "", "[1]"] = ([.jarr [.jnum 1]], none) :=
  ⟨rfl, rfl⟩

/-! ### C4: first-entry fetch failure in human format -/

/-- Claim C4 (code bug). When the truncated seed re-fetch fails, the
conversation holds one entry whose tweet dict is empty; the human renderer
applied to it (crawl.py line 190) raises KeyError on is_profile instead of
printing the seed text, even though the original seed text is available
(third conjunct) and the comment at crawl.py lines 187 to 188 says the
original data is to be used. -/
theorem first_entry_failure_human_keyerror :
    (get_conversation api404 5 seedT false 10 []).entries =
      [⟨some 1, none, some ⟨404, none⟩, none, none, none, none, none, none, none⟩] ∧
    format_tweet_for_humans
      ⟨some 1, none, some ⟨404, none⟩, none, none, none, none, none, none, none⟩ 1 1 =
      .error (.keyError "is_profile") ∧
    seedT.text = some "hello…" :=
  ⟨rfl, rfl, rfl⟩

/-! ### C6: the truncation heuristic -/

/-- Claim C6 counterexample. A tweet without full_text whose text holds the
ellipsis character in the middle: the check returns true although the text
does not end with the ellipsis, so the ends-with reading of the claim is
false; the source tests membership, not a suffix. -/
theorem truncation_contains_counterexample :
    does_tweet_look_truncated ⟨none, some (some "a…b")⟩ = .ok true ∧
    strEndsWith "a…b" "…" = false :=
  ⟨rfl, rfl⟩

/-- Claim C6 as amended: with full_text present the check returns false
regardless of content; with full_text absent and a string text it returns
true if and only if the text contains the horizontal-ellipsis character
anywhere, not only at the end. -/
theorem truncation_check_spec (t : TweetDict) :
    (t.full_text.isSome = true → does_tweet_look_truncated t = .ok false) ∧
    (t.full_text = none → ∀ s, t.text = some (some s) →
      (does_tweet_look_truncated t = .ok true ↔ charIn '…' s = true)) := by
  constructor
  · intro h
    simp [does_tweet_look_truncated, h]
  · intro h s hs
    simp [does_tweet_look_truncated, h, hs]

/-- Witness for the amended claim C6 at concrete tweets. -/
theorem truncation_check_spec_witness :
    does_tweet_look_truncated ⟨some (some "x"), some (some "y…")⟩ = .ok false ∧
    (does_tweet_look_truncated ⟨none, some (some "a…")⟩ = .ok true ↔
      charIn '…' "a…" = true) :=
  ⟨(truncation_check_spec ⟨some (some "x"), some (some "y…")⟩).1 rfl,
   (truncation_check_spec ⟨none, some (some "a…")⟩).2 rfl "a…" rfl⟩

/-! ### C7: embedded-message stripping on a non-matching payload -/

/-- Claim C7 (code bug). For a response record whose single-line payload does
not match the status-line heuristic, the stripper does not return the payload
unmodified: the continue statement at warc_simple.py line 192 has already
consumed the first non-blank line, so the whole single-line payload is
dropped and the empty string comes back. -/
theorem strip_http_headers_drops_first_line :
    strip_http_headers "[1, 2]" "response" = "" ∧
    looks_like_http_header "[1, 2]" "response" = false ∧
    "[1, 2]" ≠ "" :=
  ⟨rfl, rfl, by decide⟩

/-! ### C8: duplicate header names -/

/-- Claim C8 counterexample. A header block with the name A twice: the
mapping holds a single entry with the second value only; the first value 1
does not occur in it, so the values are not concatenated in encounter
order. -/
theorem headers_dup_counterexample :
    headers_to_dict "A: 1\nA: 2" = .ok [("A", "2")] ∧ charIn '1' "2" = false :=
  ⟨rfl, rfl⟩

/-! ### C10: the truncation check raises without a string text -/

/-- Claim C10. For a tweet dict lacking full_text, a missing text key or a
None text value makes does_tweet_look_truncated raise (KeyError at the
subscript, TypeError at the membership test) instead of returning a
boolean. -/
theorem truncation_check_raises_without_text (t : TweetDict)
    (hft : t.full_text = none) (ht : t.text = none ∨ t.text = some none) :
    ∃ e, does_tweet_look_truncated t = .error e := by
  rcases ht with h | h
  · exact ⟨.keyError "text", by simp [does_tweet_look_truncated, hft, h]⟩
  · exact ⟨.typeError, by simp [does_tweet_look_truncated, hft, h]⟩

/-- Witness for claim C10 at the tweet dict with both keys missing. -/
theorem truncation_check_raises_without_text_witness :
    ∃ e, does_tweet_look_truncated ⟨none, none⟩ = .error e :=
  truncation_check_raises_without_text ⟨none, none⟩ rfl (Or.inl rfl)

/-! ### Lemmas about the done dict and one walk step -/

/-- Inserting a fresh id into the done dict: lookups of the new id yield
count 1 and other lookups are unchanged. -/
theorem pyDictGet_incr_fresh (d : List (Int × Nat)) (i x : Int)
    (h : pyDictGet d i = none) :
    pyDictGet (pyDictIncr d i) x = if x = i then some 1 else pyDictGet d x := by
  unfold pyDictIncr
  rw [h]
  unfold pyDictGet at h ⊢
  rw [List.find?_append]
  rcases hfx : List.find? (fun p => p.1 == x) d with _ | p
  · simp only [hfx, Option.none_or, Option.map_eq_none] at *
    by_cases hxi : x = i
    · subst hxi
      simp [List.find?]
    · have hix : (i == x) = false := by
        simp only [beq_eq_false_iff_ne, ne_eq]
        exact fun hh => hxi hh.symm
      simp [List.find?, hix, hxi]
  · have hxi : ¬ x = i := by
      intro he
      subst he
      rw [hfx] at h
      simp at h
    simp [hfx, Option.or, hxi]

/-- A walk step at an id already in the done dict stops at once: no entry, no
fetch, no budget warning, state unchanged (crawl.py lines 357 to 359). -/
theorem walkLoop_stops_done (api : Int → ApiResult) (fuel : Nat) (id rb rt : Option Int)
    (rbu rtu : Option String) (d : List (Int × Nat)) (rem : Int)
    (h : idTruthy id = true) (hd : (pyDictGet d (id.getD 0)).isSome = true) :
    walkLoop api (fuel + 1) id rb rbu rt rtu d rem = ⟨[], d, rem, [], false⟩ := by
  simp [walkLoop, h, hd]

/-- A walk step at a fresh id with no budget left stops with the budget
warning and no fetch (crawl.py lines 363 to 366). -/
theorem walkLoop_stops_budget (api : Int → ApiResult) (fuel : Nat) (id rb rt : Option Int)
    (rbu rtu : Option String) (d : List (Int × Nat)) (rem : Int)
    (h : idTruthy id = true) (hd : pyDictGet d (id.getD 0) = none)
    (hr : ¬ (0 : Int) < rem) :
    walkLoop api (fuel + 1) id rb rbu rt rtu d rem = ⟨[], d, rem, [], true⟩ := by
  simp [walkLoop, h, hd, hr]

/-- The remaining budget after a walk equals the starting budget minus one per
fetch performed, and a nonnegative budget never goes negative. -/
theorem walkLoop_remaining (api : Int → ApiResult) :
    ∀ (fuel : Nat) (id rb rt : Option Int) (rbu rtu : Option String)
      (d : List (Int × Nat)) (rem : Int), 0 ≤ rem →
      (walkLoop api fuel id rb rbu rt rtu d rem).remaining =
        rem - ((walkLoop api fuel id rb rbu rt rtu d rem).fetchLog.length : Int) ∧
      0 ≤ (walkLoop api fuel id rb rbu rt rtu d rem).remaining := by
  intro fuel
  induction fuel with
  | zero =>
    intro id rb rt rbu rtu d rem h0
    simpa [walkLoop] using h0
  | succ n ih =>
    intro id rb rt rbu rtu d rem h0
    by_cases h1 : idTruthy id = true
    · by_cases h2 : (pyDictGet d (id.getD 0)).isSome = true
      · rw [walkLoop_stops_done api n id rb rt rbu rtu d rem h1 h2]
        simpa using h0
      · have h2n : pyDictGet d (id.getD 0) = none :=
          Option.not_isSome_iff_eq_none.mp (by simpa using h2)
        by_cases h3 : (0 : Int) < rem
        · by_cases hs : ((api (id.getD 0)).status_code == 200) = true
          · rcases hft : fetchTweet api (id.getD 0) with _ | t
            · simp only [walkLoop, h1, h2n, h3, hs, hft]
              simp
              omega
            · simp [walkLoop, h1, h2n, h3, hs, hft]
              have hrec := ih (pyOrId (t.in_reply_to_id) (t.retweeted_id))
                (if idTruthy t.in_reply_to_id then some (id.getD 0) else none)
                (if idTruthy t.retweeted_id then some (id.getD 0) else none)
                (if idTruthy t.in_reply_to_id then t.user else none)
                (if idTruthy t.retweeted_id then t.user else none)
                (pyDictIncr d (id.getD 0)) (rem - 1) (by omega)
              obtain ⟨ha, hb⟩ := hrec
              refine ⟨?_, hb⟩
              rw [ha]
              ring
          · have hsf : ((api (id.getD 0)).status_code == 200) = false := by
              simpa using hs
            simp only [walkLoop, h1, h2n, h3, hsf]
            simp
            omega
        · rw [walkLoop_stops_budget api n id rb rt rbu rtu d rem h1 h2n h3]
          simpa using h0
    · have h1f : idTruthy id = false := by simpa using h1
      simp only [walkLoop, h1f]
      simpa using h0

/-- Ids present in the done dict keep their counts across a whole walk: a
walk only inserts ids that were absent when the step began. -/
theorem walkLoop_done_preserved (api : Int → ApiResult) :
    ∀ (fuel : Nat) (id rb rt : Option Int) (rbu rtu : Option String)
      (d : List (Int × Nat)) (rem : Int) (x : Int) (c : Nat),
      pyDictGet d x = some c →
      pyDictGet (walkLoop api fuel id rb rbu rt rtu d rem).doneMap x = some c := by
  intro fuel
  induction fuel with
  | zero =>
    intro id rb rt rbu rtu d rem x c h
    simpa [walkLoop] using h
  | succ n ih =>
    intro id rb rt rbu rtu d rem x c h
    by_cases h1 : idTruthy id = true
    · by_cases h2 : (pyDictGet d (id.getD 0)).isSome = true
      · rw [walkLoop_stops_done api n id rb rt rbu rtu d rem h1 h2]
        exact h
      · have h2n : pyDictGet d (id.getD 0) = none :=
          Option.not_isSome_iff_eq_none.mp (by simpa using h2)
        by_cases h3 : (0 : Int) < rem
        · have hxi : ¬ x = id.getD 0 := by
            intro he
            rw [he, h2n] at h
            exact Option.noConfusion h
          by_cases hs : ((api (id.getD 0)).status_code == 200) = true
          · have hd2 : pyDictGet (pyDictIncr d (id.getD 0)) x = some c := by
              rw [pyDictGet_incr_fresh d (id.getD 0) x h2n, if_neg hxi]
              exact h
            rcases hft : fetchTweet api (id.getD 0) with _ | t
            · simp [walkLoop, h1, h2n, h3, hs, hft]
              exact hd2
            · simp [walkLoop, h1, h2n, h3, hs, hft]
              exact ih _ _ _ _ _ _ _ _ _ hd2
          · have hsf : ((api (id.getD 0)).status_code == 200) = false := by
              simpa using hs
            simp [walkLoop, h1, h2n, h3, hsf]
            exact h
        · rw [walkLoop_stops_budget api n id rb rt rbu rtu d rem h1 h2n h3]
          exact h
    · have h1f : idTruthy id = false := by simpa using h1
      simpa [walkLoop, h1f] using h

/-- An id already in the done dict is never fetched again by any later walk
step: the dedup check of crawl.py line 357 runs before the fetch. -/
theorem walkLoop_no_refetch (api : Int → ApiResult) :
    ∀ (fuel : Nat) (id rb rt : Option Int) (rbu rtu : Option String)
      (d : List (Int × Nat)) (rem : Int) (x : Int) (c : Nat),
      pyDictGet d x = some c →
      x ∉ (walkLoop api fuel id rb rbu rt rtu d rem).fetchLog := by
  intro fuel
  induction fuel with
  | zero =>
    intro id rb rt rbu rtu d rem x c h
    simp [walkLoop]
  | succ n ih =>
    intro id rb rt rbu rtu d rem x c h
    by_cases h1 : idTruthy id = true
    · by_cases h2 : (pyDictGet d (id.getD 0)).isSome = true
      · rw [walkLoop_stops_done api n id rb rt rbu rtu d rem h1 h2]
        simp
      · have h2n : pyDictGet d (id.getD 0) = none :=
          Option.not_isSome_iff_eq_none.mp (by simpa using h2)
        by_cases h3 : (0 : Int) < rem
        · have hxi : ¬ x = id.getD 0 := by
            intro he
            rw [he, h2n] at h
            exact Option.noConfusion h
          by_cases hs : ((api (id.getD 0)).status_code == 200) = true
          · have hd2 : pyDictGet (pyDictIncr d (id.getD 0)) x = some c := by
              rw [pyDictGet_incr_fresh d (id.getD 0) x h2n, if_neg hxi]
              exact h
            rcases hft : fetchTweet api (id.getD 0) with _ | t
            · simp [walkLoop, h1, h2n, h3, hs, hft]
              exact hxi
            · simp [walkLoop, h1, h2n, h3, hs, hft]
              exact ⟨hxi, ih _ _ _ _ _ _ _ _ _ hd2⟩
          · have hsf : ((api (id.getD 0)).status_code == 200) = false := by
              simpa using hs
            simp [walkLoop, h1, h2n, h3, hsf]
            exact hxi
        · rw [walkLoop_stops_budget api n id rb rt rbu rtu d rem h1 h2n h3]
          simp
    · have h1f : idTruthy id = false := by simpa using h1
      simp [walkLoop, h1f]

/-- Each id absent from the done dict is fetched at most once by a walk, and
exactly once whenever it ends up in the done dict (only a successful fetch
inserts it, and the dedup check blocks any second fetch). -/
theorem walkLoop_fetch_once (api : Int → ApiResult) :
    ∀ (fuel : Nat) (id rb rt : Option Int) (rbu rtu : Option String)
      (d : List (Int × Nat)) (rem : Int) (x : Int),
      pyDictGet d x = none →
      List.count x (walkLoop api fuel id rb rbu rt rtu d rem).fetchLog ≤ 1 ∧
      ((pyDictGet (walkLoop api fuel id rb rbu rt rtu d rem).doneMap x).isSome = true →
        List.count x (walkLoop api fuel id rb rbu rt rtu d rem).fetchLog = 1) := by
  intro fuel
  induction fuel with
  | zero =>
    intro id rb rt rbu rtu d rem x h
    simp [walkLoop, h]
  | succ n ih =>
    intro id rb rt rbu rtu d rem x h
    by_cases h1 : idTruthy id = true
    · by_cases h2 : (pyDictGet d (id.getD 0)).isSome = true
      · rw [walkLoop_stops_done api n id rb rt rbu rtu d rem h1 h2]
        simp [h]
      · have h2n : pyDictGet d (id.getD 0) = none :=
          Option.not_isSome_iff_eq_none.mp (by simpa using h2)
        by_cases h3 : (0 : Int) < rem
        · by_cases hs : ((api (id.getD 0)).status_code == 200) = true
          · rcases hft : fetchTweet api (id.getD 0) with _ | t
            · by_cases hxi : x = id.getD 0
              · subst hxi
                simp [walkLoop, h1, h2n, h3, hs, hft]
              · have hd2 : pyDictGet (pyDictIncr d (id.getD 0)) x = none := by
                  rw [pyDictGet_incr_fresh d (id.getD 0) x h2n, if_neg hxi]
                  exact h
                have hne : ¬ id.getD 0 = x := fun he => hxi he.symm
                simp [walkLoop, h1, h2n, h3, hs, hft, hd2, hne]
                simpa using List.count_le_length x [id.getD 0]
            · by_cases hxi : x = id.getD 0
              · subst hxi
                have hd2 : pyDictGet (pyDictIncr d (id.getD 0)) (id.getD 0) = some 1 := by
                  rw [pyDictGet_incr_fresh d (id.getD 0) (id.getD 0) h2n]
                  simp
                have hnot : (id.getD 0) ∉ (walkLoop api n
                    (pyOrId t.in_reply_to_id t.retweeted_id)
                    (if idTruthy t.in_reply_to_id then some (id.getD 0) else none)
                    (if idTruthy t.in_reply_to_id then t.user else none)
                    (if idTruthy t.retweeted_id then some (id.getD 0) else none)
                    (if idTruthy t.retweeted_id then t.user else none)
                    (pyDictIncr d (id.getD 0)) (rem - 1)).fetchLog := by
                  exact walkLoop_no_refetch api n _ _ _ _ _ _ _ _ 1 hd2
                have hz := List.count_eq_zero.mpr hnot
                simp [walkLoop, h1, h2n, h3, hs, hft, hz]
              · have hd2 : pyDictGet (pyDictIncr d (id.getD 0)) x = none := by
                  rw [pyDictGet_incr_fresh d (id.getD 0) x h2n, if_neg hxi]
                  exact h
                have hrec := ih (pyOrId t.in_reply_to_id t.retweeted_id)
                  (if idTruthy t.in_reply_to_id then some (id.getD 0) else none)
                  (if idTruthy t.retweeted_id then some (id.getD 0) else none)
                  (if idTruthy t.in_reply_to_id then t.user else none)
                  (if idTruthy t.retweeted_id then t.user else none)
                  (pyDictIncr d (id.getD 0)) (rem - 1) x hd2
                have hne : ¬ id.getD 0 = x := fun he => hxi he.symm
                have hcc : ∀ l : List Int, List.count x (id.getD 0 :: l) = List.count x l := by
                  intro l
                  simp [List.count_cons, hne]
                simp [walkLoop, h1, h2n, h3, hs, hft, hne, hcc]
                exact hrec
          · have hsf : ((api (id.getD 0)).status_code == 200) = false := by
              simpa using hs
            by_cases hxi : x = id.getD 0
            · subst hxi
              simp [walkLoop, h1, h2n, h3, hsf, h]
            · have hne : ¬ id.getD 0 = x := fun he => hxi he.symm
              simp [walkLoop, h1, h2n, h3, hsf, h, hne]
              simpa using List.count_le_length x [id.getD 0]
        · rw [walkLoop_stops_budget api n id rb rt rbu rtu d rem h1 h2n h3]
          simp [h]
    · have h1f : idTruthy id = false := by simpa using h1
      simp [walkLoop, h1f, h]

/-- A walk never appends an entry for an id that is already in the done dict:
the dedup break of crawl.py lines 357 to 359 precedes the append. -/
theorem walkLoop_no_entry_done (api : Int → ApiResult) :
    ∀ (fuel : Nat) (id rb rt : Option Int) (rbu rtu : Option String)
      (d : List (Int × Nat)) (rem : Int) (x : Int) (c : Nat),
      pyDictGet d x = some c →
      ∀ e ∈ (walkLoop api fuel id rb rbu rt rtu d rem).entries, e.id ≠ some x := by
  intro fuel
  induction fuel with
  | zero =>
    intro id rb rt rbu rtu d rem x c h
    simp [walkLoop]
  | succ n ih =>
    intro id rb rt rbu rtu d rem x c h
    by_cases h1 : idTruthy id = true
    · by_cases h2 : (pyDictGet d (id.getD 0)).isSome = true
      · rw [walkLoop_stops_done api n id rb rt rbu rtu d rem h1 h2]
        simp
      · have h2n : pyDictGet d (id.getD 0) = none :=
          Option.not_isSome_iff_eq_none.mp (by simpa using h2)
        by_cases h3 : (0 : Int) < rem
        · have hxi : ¬ x = id.getD 0 := by
            intro he
            rw [he, h2n] at h
            exact Option.noConfusion h
          have hne : ¬ id.getD 0 = x := fun he => hxi he.symm
          by_cases hs : ((api (id.getD 0)).status_code == 200) = true
          · have hd2 : pyDictGet (pyDictIncr d (id.getD 0)) x = some c := by
              rw [pyDictGet_incr_fresh d (id.getD 0) x h2n, if_neg hxi]
              exact h
            rcases hft : fetchTweet api (id.getD 0) with _ | t
            · simp [walkLoop, h1, h2n, h3, hs, hft, hne]
            · simp [walkLoop, h1, h2n, h3, hs, hft, hne]
              exact ih _ _ _ _ _ _ _ _ _ hd2
          · have hsf : ((api (id.getD 0)).status_code == 200) = false := by
              simpa using hs
            simp [walkLoop, h1, h2n, h3, hsf, hne]
        · rw [walkLoop_stops_budget api n id rb rt rbu rtu d rem h1 h2n h3]
          simp
    · have h1f : idTruthy id = false := by simpa using h1
      simp [walkLoop, h1f]

/-- The walk of get_conversation shares its done dict and fetch log with the
underlying loop, started at the reply target for a reused seed and at the
seed id otherwise. -/
theorem get_conversation_parts (api : Int → ApiResult) (fuel : Nat)
    (t : ExtractedTweet) (u : Bool) (rem : Int) (d : List (Int × Nat)) :
    (get_conversation api fuel t u rem d).doneMap =
      (walkLoop api fuel (if u then t.in_reply_to_id else t.id)
        none none none none d rem).doneMap ∧
    (get_conversation api fuel t u rem d).fetchLog =
      (walkLoop api fuel (if u then t.in_reply_to_id else t.id)
        none none none none d rem).fetchLog ∧
    (get_conversation api fuel t u rem d).entries =
      (if u then [mkSeedEntry t] else []) ++
      (walkLoop api fuel (if u then t.in_reply_to_id else t.id)
        none none none none d rem).entries := by
  cases u <;> simp [get_conversation]

/-- Claim C2. In a dedup run, once an id was resolved by an earlier
conversation (one fetch, recorded in the shared done dict), a later
conversation walk never fetches it again: the total fetch count for the id
stays one, a walk step reaching the id stops at once with no entry, no fetch
and no budget warning, and no fetched entry for the id is appended by the
second conversation. -/
theorem dedup_single_fetch (api : Int → ApiResult) (fuel1 fuel2 : Nat)
    (t1 t2 : ExtractedTweet) (u1 u2 : Bool) (r1 r2 : Int)
    (d0 : List (Int × Nat)) (x : Int)
    (h0 : pyDictGet d0 x = none)
    (h1 : (pyDictGet (get_conversation api fuel1 t1 u1 r1 d0).doneMap x).isSome = true) :
    List.count x (get_conversation api fuel1 t1 u1 r1 d0).fetchLog = 1 ∧
    List.count x (get_conversation api fuel2 t2 u2 r2
      (get_conversation api fuel1 t1 u1 r1 d0).doneMap).fetchLog = 0 ∧
    (∀ (fuel3 : Nat) (rb rt : Option Int) (rbu rtu : Option String) (rem3 : Int),
      walkLoop api (fuel3 + 1) (some x) rb rbu rt rtu
        (get_conversation api fuel1 t1 u1 r1 d0).doneMap rem3 =
        ⟨[], (get_conversation api fuel1 t1 u1 r1 d0).doneMap, rem3, [], false⟩) ∧
    (∀ e ∈ (get_conversation api fuel2 t2 u2 r2
      (get_conversation api fuel1 t1 u1 r1 d0).doneMap).entries,
      e.response.isSome = true → e.id ≠ some x) := by
  obtain ⟨hwd1, hwf1, _⟩ := get_conversation_parts api fuel1 t1 u1 r1 d0
  have once := walkLoop_fetch_once api fuel1 (if u1 then t1.in_reply_to_id else t1.id)
    none none none none d0 r1 x h0
  have hc1 : List.count x (get_conversation api fuel1 t1 u1 r1 d0).fetchLog = 1 := by
    rw [hwf1]
    exact once.2 (by rw [← hwd1]; exact h1)
  obtain ⟨c, hc⟩ := Option.isSome_iff_exists.mp h1
  obtain ⟨hwd2, hwf2, hwe2⟩ := get_conversation_parts api fuel2 t2 u2 r2
    (get_conversation api fuel1 t1 u1 r1 d0).doneMap
  have hnor := walkLoop_no_refetch api fuel2 (if u2 then t2.in_reply_to_id else t2.id)
    none none none none (get_conversation api fuel1 t1 u1 r1 d0).doneMap r2 x c hc
  refine ⟨hc1, ?_, ?_, ?_⟩
  · rw [hwf2]
    exact List.count_eq_zero.mpr hnor
  · intro fuel3 rb rt rbu rtu rem3
    by_cases hx : idTruthy (some x) = true
    · exact walkLoop_stops_done api fuel3 (some x) rb rt rbu rtu _ rem3 hx
        (by simpa using h1)
    · have hxf : idTruthy (some x) = false := by simpa using hx
      simp [walkLoop, hxf]
  · intro e he hresp
    rw [hwe2] at he
    rcases List.mem_append.mp he with hseed | hwalk
    · cases u2 with
      | false => simp at hseed
      | true =>
        simp at hseed
        subst hseed
        simp [mkSeedEntry] at hresp
    · exact walkLoop_no_entry_done api fuel2 _ _ _ _ _ _ _ _ c hc e hwalk

/-- Witness for claim C2: with the stub API, resolving id 1 in a first
conversation performs one fetch; a second conversation over the same done
dict performs none, and a walk step at id 1 halts with the state unchanged. -/
theorem dedup_single_fetch_witness :
    List.count 1 (get_conversation apiOk 5 seedT false 10 []).fetchLog = 1 ∧
    List.count 1 (get_conversation apiOk 5 seedT false 10
      (get_conversation apiOk 5 seedT false 10 []).doneMap).fetchLog = 0 ∧
    walkLoop apiOk 1 (some 1) none none none none
      (get_conversation apiOk 5 seedT false 10 []).doneMap 7 =
      ⟨[], (get_conversation apiOk 5 seedT false 10 []).doneMap, 7, [], false⟩ := by
  have h := dedup_single_fetch apiOk 5 5 seedT seedT false false 10 10 [] 1 rfl (by decide)
  exact ⟨h.1, h.2.1, h.2.2.1 0 none none none none 7⟩

/-- Claim C5. One walk step checks the dedup cache first (an id already done
stops the walk with no entry, no fetch and no warning, whatever the budget),
then the budget (a fresh id with no budget left stops with the warning and no
fetch), and only then fetches; consequently the remaining counter drops by
exactly one per fetch over a whole walk and never becomes negative. -/
theorem walk_step_order_and_budget (api : Int → ApiResult) (fuel : Nat)
    (id rb rt : Option Int) (rbu rtu : Option String)
    (d : List (Int × Nat)) (rem : Int) :
    (idTruthy id = true → (pyDictGet d (id.getD 0)).isSome = true →
      walkLoop api (fuel + 1) id rb rbu rt rtu d rem = ⟨[], d, rem, [], false⟩) ∧
    (idTruthy id = true → pyDictGet d (id.getD 0) = none → ¬ (0 : Int) < rem →
      walkLoop api (fuel + 1) id rb rbu rt rtu d rem = ⟨[], d, rem, [], true⟩) ∧
    (0 ≤ rem →
      (walkLoop api (fuel + 1) id rb rbu rt rtu d rem).remaining =
        rem - ((walkLoop api (fuel + 1) id rb rbu rt rtu d rem).fetchLog.length : Int) ∧
      0 ≤ (walkLoop api (fuel + 1) id rb rbu rt rtu d rem).remaining) :=
  ⟨fun h1 h2 => walkLoop_stops_done api fuel id rb rt rbu rtu d rem h1 h2,
   fun h1 h2 h3 => walkLoop_stops_budget api fuel id rb rt rbu rtu d rem h1 h2 h3,
   fun h0 => walkLoop_remaining api (fuel + 1) id rb rt rbu rtu d rem h0⟩

/-- Witness for claim C5: the dedup stop at a done id with zero budget and no
warning, the budget stop at a fresh id, and the budget accounting of a walk
that performs one fetch. -/
theorem walk_step_order_and_budget_witness :
    walkLoop apiOk 1 (some 1) none none none none [(1, 1)] 0 =
      ⟨[], [(1, 1)], 0, [], false⟩ ∧
    walkLoop apiOk 1 (some 2) none none none none [(1, 1)] 0 =
      ⟨[], [(1, 1)], 0, [], true⟩ ∧
    ((walkLoop apiOk 1 (some 2) none none none none [] 3).remaining =
      3 - ((walkLoop apiOk 1 (some 2) none none none none [] 3).fetchLog.length : Int) ∧
     0 ≤ (walkLoop apiOk 1 (some 2) none none none none [] 3).remaining) :=
  ⟨(walk_step_order_and_budget apiOk 0 (some 1) none none none none [(1, 1)] 0).1 rfl rfl,
   (walk_step_order_and_budget apiOk 0 (some 2) none none none none [(1, 1)] 0).2.1 rfl rfl
     (by decide),
   (walk_step_order_and_budget apiOk 0 (some 2) none none none none [] 3).2.2 (by decide)⟩

/-- Claim C3 as amended. A walk with budget b on a chain that is longer than
b (every fetch succeeding, no dedup interference) produces exactly b entries
and ends with the budget warning logged: the exhaustion is recorded by that
warning, not on the final entry. -/
theorem budget_exhaustion_length (api : Int → ApiResult) :
    ∀ (ids : List Int) (fuel : Nat) (rem : Int) (d0 : List (Int × Nat))
      (rb rt : Option Int) (rbu rtu : Option String),
      chainOk api ids = true → ids.Nodup →
      (∀ i ∈ ids, pyDictGet d0 i = none) →
      ids ≠ [] → ids.length ≤ fuel → rem = (ids.length : Int) - 1 →
      (walkLoop api fuel ids.head? rb rbu rt rtu d0 rem).entries.length =
        ids.length - 1 ∧
      (walkLoop api fuel ids.head? rb rbu rt rtu d0 rem).limitHit = true := by
  intro ids
  induction ids with
  | nil =>
    intro fuel rem d0 rb rt rbu rtu _ _ _ hne _ _
    exact absurd rfl hne
  | cons i rest ih =>
    intro fuel rem d0 rb rt rbu rtu hchain hnodup hdone _ hfuel hrem
    obtain ⟨m, rfl⟩ : ∃ m, fuel = m + 1 := by
      cases fuel with
      | zero => simp at hfuel
      | succ k => exact ⟨k, rfl⟩
    cases rest with
    | nil =>
      have hi : (i != 0) = true := by simpa [chainOk] using hchain
      have hit : idTruthy (some i) = true := by simpa [idTruthy] using hi
      have hd : pyDictGet d0 i = none := hdone i (by simp)
      have hrem0 : rem = 0 := by
        simp at hrem
        omega
      rw [show (([i] : List Int).head? : Option Int) = some i from rfl,
        walkLoop_stops_budget api m (some i) rb rt rbu rtu d0 rem hit
          (by simpa using hd) (by omega)]
      simp
    | cons j rest2 =>
      simp only [chainOk, Bool.and_eq_true] at hchain
      obtain ⟨⟨⟨hi, hs⟩, hmatch⟩, htail⟩ := hchain
      rcases hft : fetchTweet api i with _ | t
      · rw [hft] at hmatch
        exact Bool.noConfusion hmatch
      · rw [hft] at hmatch
        have hnext : pyOrId t.in_reply_to_id t.retweeted_id = some j := by
          exact eq_of_beq hmatch
        have hit : idTruthy (some i) = true := by simpa [idTruthy] using hi
        have hd : pyDictGet d0 i = none := hdone i (by simp)
        have h3 : (0 : Int) < rem := by
          rw [hrem]
          simp only [List.length_cons]
          push_cast
          omega
        have hii : i ∉ j :: rest2 := (List.nodup_cons.mp hnodup).1
        have hrec := ih m (rem - 1) (pyDictIncr d0 i)
          (if idTruthy t.in_reply_to_id then some i else none)
          (if idTruthy t.retweeted_id then some i else none)
          (if idTruthy t.in_reply_to_id then t.user else none)
          (if idTruthy t.retweeted_id then t.user else none)
          htail (List.nodup_cons.mp hnodup).2
          (by
            intro k hk
            have hki : ¬ k = i := fun he => hii (he ▸ hk)
            rw [pyDictGet_incr_fresh d0 i k hd, if_neg hki]
            exact hdone k (List.mem_cons_of_mem i hk))
          (by simp)
          (by
            simp only [List.length_cons] at hfuel ⊢
            omega)
          (by
            rw [hrem]
            simp only [List.length_cons]
            push_cast
            omega)
        simp [walkLoop, hit, hd, h3, hs, hft, hnext] at hrec ⊢
        obtain ⟨hlen, hlim⟩ := hrec
        exact ⟨by omega, hlim⟩

/-- Witness for the amended claim C3: a two-id chain walked with budget one
yields exactly one entry and the warning. -/
theorem budget_exhaustion_length_witness :
    (walkLoop apiC3 2 ([1, 2] : List Int).head? none none none none [] 1).entries.length
      = 1 ∧
    (walkLoop apiC3 2 ([1, 2] : List Int).head? none none none none [] 1).limitHit
      = true := by
  have h := budget_exhaustion_length apiC3 [1, 2] 2 1 [] none none none none
    rfl (by decide) (by decide) (by decide) (by decide) (by decide)
  exact h

/-- Claim C3 counterexample. With budget one on an endless reply chain the
walk stops after one entry and the exhaustion shows up only as the logged
warning: the final entry itself equals the first entry of the same walk run
with budget two, so no field of the last entry records that the budget ran
out. -/
theorem budget_last_entry_counterexample :
    (walkLoop apiC3 9 (some 1) none none none none [] 1).entries.length = 1 ∧
    (walkLoop apiC3 9 (some 1) none none none none [] 1).limitHit = true ∧
    (walkLoop apiC3 9 (some 1) none none none none [] 1).entries.getLast? =
      (walkLoop apiC3 9 (some 1) none none none none [] 2).entries.head? :=
  ⟨rfl, rfl, rfl⟩

/-- Claim C9. A payload classified as a profile (a status key next to a
screen_name key) extracts to a tweet whose reply and retweet fields are all
None (tweet_tools.py lines 159 to 167); consequently a conversation seeded
from such a profile with use_original set reuses the original item as its
only entry and performs no remote fetch. -/
theorem profile_extract_and_walk (dt : DType) (entry : JVal) (t : ExtractedTweet)
    (hp : (jhas entry "status" && jhas entry "screen_name") = true)
    (he : extract_tweet dt entry true = some t) :
    t.in_reply_to_id = none ∧ t.in_reply_to_user = none ∧ t.retweeted_id = none ∧
    t.retweeted_text = none ∧ t.retweeted_user = none ∧ t.is_retweet = none ∧
    ∀ (api : Int → ApiResult) (fuel : Nat) (rem : Int) (d : List (Int × Nat)),
      get_conversation api fuel t true rem d =
        ⟨[mkSeedEntry t], d, rem, [], false⟩ := by
  obtain ⟨hst, hsn⟩ : jhas entry "status" = true ∧ jhas entry "screen_name" = true := by
    simpa [Bool.and_eq_true] using hp
  rcases hsu : get_user_and_status entry with _ | p
  · exfalso
    unfold get_user_and_status at hsu
    by_cases hu : jhas entry "user" = true
    · simp [hu] at hsu
    · simp [hu, hst] at hsu
  · simp [extract_tweet, hp, hsu] at he
    have h_ir : t.in_reply_to_id = none := by rw [← he]
    have h_iru : t.in_reply_to_user = none := by rw [← he]
    have h_rid : t.retweeted_id = none := by rw [← he]
    have h_rtx : t.retweeted_text = none := by rw [← he]
    have h_rus : t.retweeted_user = none := by rw [← he]
    have h_irt : t.is_retweet = none := by rw [← he]
    refine ⟨h_ir, h_iru, h_rid, h_rtx, h_rus, h_irt, ?_⟩
    intro api fuel rem d
    cases fuel with
    | zero => simp [get_conversation, walkLoop]
    | succ n => simp [get_conversation, walkLoop, h_ir, idTruthy]

/-- Witness for claim C9 at the concrete profile fixture. -/
theorem profile_extract_and_walk_witness :
    profT.in_reply_to_id = none ∧ profT.in_reply_to_user = none ∧
    profT.retweeted_id = none ∧ profT.retweeted_text = none ∧
    profT.retweeted_user = none ∧ profT.is_retweet = none ∧
    get_conversation api404 3 profT true 5 [] = ⟨[mkSeedEntry profT], [], 5, [], false⟩ := by
  have h := profile_extract_and_walk .json_str entryP profT rfl rfl
  exact ⟨h.1, h.2.1, h.2.2.1, h.2.2.2.1, h.2.2.2.2.1, h.2.2.2.2.2.1,
    h.2.2.2.2.2.2 api404 3 5 []⟩

/-! ### String splitting lemmas used for the header-duplicate theorem -/

/-- Splitting at the first separator occurrence: the prefix free of the
separator becomes one piece. -/
theorem splitOnCharAux_append (sep : Char) (as bs acc : List Char)
    (h : ∀ c ∈ as, c ≠ sep) :
    splitOnCharAux sep (as ++ sep :: bs) acc =
      String.mk (acc.reverse ++ as) :: splitOnCharAux sep bs [] := by
  induction as generalizing acc with
  | nil => simp [splitOnCharAux]
  | cons a as ih =>
    have ha : ¬ (a == sep) = true := by
      simp only [beq_iff_eq]
      exact h a (List.mem_cons_self a as)
    simp only [List.cons_append, splitOnCharAux, if_neg ha, List.append_eq]
    rw [ih (a :: acc) (fun c hc => h c (List.mem_cons_of_mem a hc))]
    simp

/-- A separator-free list splits into a single piece. -/
theorem splitOnCharAux_no_sep (sep : Char) (bs acc : List Char)
    (h : ∀ c ∈ bs, c ≠ sep) :
    splitOnCharAux sep bs acc = [String.mk (acc.reverse ++ bs)] := by
  induction bs generalizing acc with
  | nil => simp [splitOnCharAux]
  | cons b bs ih =>
    have hb : ¬ (b == sep) = true := by
      simp only [beq_iff_eq]
      exact h b (List.mem_cons_self b bs)
    simp only [splitOnCharAux, if_neg hb]
    rw [ih (b :: acc) (fun c hc => h c (List.mem_cons_of_mem b hc))]
    simp

/-- Splitting lines at the first newline: the newline-free prefix becomes one
line. -/
theorem splitlinesAux_append (as bs acc : List Char)
    (h : ∀ c ∈ as, c ≠ '\n') :
    splitlinesAux (as ++ '\n' :: bs) acc =
      String.mk (acc.reverse ++ as) :: splitlinesAux bs [] := by
  induction as generalizing acc with
  | nil => simp [splitlinesAux]
  | cons a as ih =>
    have ha : ¬ (a == '\n') = true := by
      simp only [beq_iff_eq]
      exact h a (List.mem_cons_self a as)
    simp only [List.cons_append, splitlinesAux, if_neg ha, List.append_eq]
    rw [ih (a :: acc) (fun c hc => h c (List.mem_cons_of_mem a hc))]
    simp

/-- A nonempty newline-free tail forms the final line. -/
theorem splitlinesAux_no_newline (bs acc : List Char)
    (h : ∀ c ∈ bs, c ≠ '\n') (hne : acc.reverse ++ bs ≠ []) :
    splitlinesAux bs acc = [String.mk (acc.reverse ++ bs)] := by
  induction bs generalizing acc with
  | nil =>
    have hacc : ¬ acc.isEmpty = true := by
      simp only [List.isEmpty_iff]
      intro he
      subst he
      simp at hne
    simp [splitlinesAux, hacc]
  | cons b bs ih =>
    have hb : ¬ (b == '\n') = true := by
      simp only [beq_iff_eq]
      exact h b (List.mem_cons_self b bs)
    simp only [splitlinesAux, if_neg hb]
    rw [ih (b :: acc) (fun c hc => h c (List.mem_cons_of_mem b hc)) (by simp)]
    simp

/-- The colon split of a well-shaped header line: the name before the colon,
then the value with its leading space. -/
theorem headerLine_fields (n v : String)
    (hn : ∀ c ∈ n.data, c ≠ ':' ∧ c ≠ '\n')
    (hv : ∀ c ∈ v.data, c ≠ ':' ∧ c ≠ '\n') :
    pySplitColon (n ++ ": " ++ v) = [n, String.mk (' ' :: v.data)] := by
  have hdata : (n ++ ": " ++ v).data = n.data ++ ':' :: ' ' :: v.data := by
    have hc : (": " : String).data = [':', ' '] := rfl
    simp [String.data_append, hc]
  unfold pySplitColon
  rw [hdata, splitOnCharAux_append ':' n.data (' ' :: v.data) []
    (fun c hc => (hn c hc).1)]
  rw [splitOnCharAux_no_sep ':' (' ' :: v.data) []
    (by
      intro c hc
      rcases List.mem_cons.mp hc with rfl | hcv
      · decide
      · exact (hv c hcv).1)]
  simp

/-- Stripping the single leading space of a value that has no further leading
spaces. -/
theorem lstrip_step (v : String) (hlv : lstripSpace v = v) :
    lstripSpace (String.mk (' ' :: v.data)) = v := by
  unfold lstripSpace at hlv ⊢
  simp only [List.dropWhile]
  simpa using hlv

/-- Eta rule for strings viewed through their character lists. -/
theorem strEta (s : String) : String.mk s.data = s := rfl

/-- Claim C8 as amended. A header block repeating a name keeps one entry for
it, at its first-insertion position, holding the value of the last
occurrence; names are compared by full case-sensitive string equality, so
names differing only in case stay separate entries in insertion order. -/
theorem headers_dup_last_value (n1 n2 v1 v2 : String)
    (hn1 : ∀ c ∈ n1.data, c ≠ ':' ∧ c ≠ '\n')
    (hn2 : ∀ c ∈ n2.data, c ≠ ':' ∧ c ≠ '\n')
    (hv1 : ∀ c ∈ v1.data, c ≠ ':' ∧ c ≠ '\n')
    (hv2 : ∀ c ∈ v2.data, c ≠ ':' ∧ c ≠ '\n')
    (hl1 : lstripSpace v1 = v1) (hl2 : lstripSpace v2 = v2) :
    headers_to_dict (n1 ++ ": " ++ v1 ++ "\n" ++ n2 ++ ": " ++ v2) =
      .ok (if n2 = n1 then [(n1, v2)] else [(n1, v1), (n2, v2)]) := by
  have hcolon : (": " : String).data = [':', ' '] := rfl
  have hnl : ("\n" : String).data = ['\n'] := rfl
  have hl1d : (n1 ++ ": " ++ v1).data = n1.data ++ ':' :: ' ' :: v1.data := by
    simp [String.data_append, hcolon]
  have hl2d : (n2 ++ ": " ++ v2).data = n2.data ++ ':' :: ' ' :: v2.data := by
    simp [String.data_append, hcolon]
  have hline1nl : ∀ c ∈ (n1 ++ ": " ++ v1).data, c ≠ '\n' := by
    rw [hl1d]
    intro c hc
    rcases List.mem_append.mp hc with h | h
    · exact (hn1 c h).2
    · rcases List.mem_cons.mp h with rfl | h
      · decide
      · rcases List.mem_cons.mp h with rfl | h
        · decide
        · exact (hv1 c h).2
  have hsplit : pySplitlines (n1 ++ ": " ++ v1 ++ "\n" ++ n2 ++ ": " ++ v2) =
      [n1 ++ ": " ++ v1, n2 ++ ": " ++ v2] := by
    unfold pySplitlines
    have hd : (n1 ++ ": " ++ v1 ++ "\n" ++ n2 ++ ": " ++ v2).data =
        (n1 ++ ": " ++ v1).data ++ '\n' :: (n2 ++ ": " ++ v2).data := by
      simp [String.data_append, hnl]
    rw [hd, splitlinesAux_append _ _ [] hline1nl]
    rw [splitlinesAux_no_newline _ []
      (by
        rw [hl2d]
        intro c hc
        rcases List.mem_append.mp hc with h | h
        · exact (hn2 c h).2
        · rcases List.mem_cons.mp h with rfl | h
          · decide
          · rcases List.mem_cons.mp h with rfl | h
            · decide
            · exact (hv2 c h).2)
      (by simp [hl2d])]
    simp
    constructor
    · rw [← hl1d]
    · rw [← hl2d]
  have hf1 := headerLine_fields n1 v1 hn1 hv1
  have hf2 := headerLine_fields n2 v2 hn2 hv2
  unfold headers_to_dict
  rw [hsplit]
  simp only [headersToDictAux, hf1, hf2, joinColon]
  simp [odSet, lstrip_step v1 hl1, lstrip_step v2 hl2]
  by_cases heq : n2 = n1
  · subst heq
    simp
  · have hne : (n1 == n2) = false := by
      simp only [beq_eq_false_iff_ne, ne_eq]
      exact fun hh => heq hh.symm
    simp [hne, heq]
    exact fun hh => heq hh.symm

/-- Witness for the amended claim C8 at a concrete duplicated header name. -/
theorem headers_dup_last_value_witness :
    headers_to_dict ("Name" ++ ": " ++ "x" ++ "\n" ++ "Name" ++ ": " ++ "y") =
      .ok [("Name", "y")] := by
  have h := headers_dup_last_value "Name" "Name" "x" "y"
    (by decide) (by decide) (by decide) (by decide) rfl rfl
  simpa using h

/-- Claim C1 as amended. A record whose payload does not parse as JSON makes
decoding log the first 130 characters of the payload and re-raise the parse
error: the whole stream aborts with a payload-decode error, yielding no
records, even though the following record on its own is well formed. The
offending record is not skipped and decoding does not continue. -/
theorem parse_json_aborts_on_bad_payload (jl : String → Option JVal)
    (c g : String) (v : JVal)
    (hc : isMarkerLine c = false) (hg : isMarkerLine g = false)
    (hjc : jl (c ++ "\n") = none) (hjg : jl (g ++ "\n") = some v) :
    parse_json jl ["WARC/1.0", "", c, "WARC/1.0", "", g] =
      ([], some (.payloadDecode (strTake (c ++ "\n") 130))) ∧
    parse_json jl ["WARC/1.0", "", g] = ([v], none) := by
  have hm : isMarkerLine "WARC/1.0" = true := by decide
  have hb : pyRstripCRLF "" = "" := rfl
  have hjoinc : joinLines [c] = c ++ "\n" := by simp [joinLines]
  have hjoing : joinLines [g] = g ++ "\n" := by simp [joinLines]
  have hcne : c ++ "\n" ≠ "" := by
    intro h
    have h2 := congrArg String.data h
    simp [String.data_append] at h2
  have hgne : g ++ "\n" ≠ "" := by
    intro h
    have h2 := congrArg String.data h
    simp [String.data_append] at h2
  constructor
  · simp [parse_json, parseLinesJson, hm, hb, hc, hjoinc, create_return_data_json,
      hcne, hjc]
  · simp [parse_json, parseLinesJson, hm, hb, hg, hjoing, create_return_data_json,
      hgne, hjg]

/-- Witness for the amended claim C1 with the json.loads stub. -/
theorem parse_json_aborts_on_bad_payload_witness :
    parse_json jl0 ["WARC/1.0", "", "notjson", "WARC/1.0", "", "[1]"] =
      ([], some (.payloadDecode (strTake ("notjson" ++ "\n") 130))) ∧
    parse_json jl0 ["WARC/1.0", "", "[1]"] = ([.jarr [.jnum 1]], none) :=
  parse_json_aborts_on_bad_payload jl0 "notjson" "[1]" (.jarr [.jnum 1])
    (by decide) (by decide) rfl rfl
